import Mathlib

/-!
Shallow embedding of the gesture/view-state core of the slide-viewer
carousel (`src/components/Carousel.tsx`, deck from `src/constants.ts`).

Conventions of the embedding:
* JavaScript numbers that hold pixel coordinates, distances, scales,
  velocities and timestamps are modelled as rationals (`ℚ`); page indices
  and navigation directions are `Int`.
* React `useState` / `useRef` cells that the verified claims touch are
  gathered into one record, `CarouselState`; each event handler of the
  component becomes a function from that record (plus the event payload)
  to a new record, possibly paired with the list of discrete effects the
  handler emits.
* `Math.min` / `Math.max` become `min` / `max` on `ℚ`; the comparison
  `Math.sqrt(q) < 30` (line 213-218 of the source) is embedded as the
  equivalent `q < 30 * 30` on the non-negative radicand.
-/

/-- Slide record, shape as used by `src/constants.ts` (`{ id, url, alt }`). -/
structure SlideData where
  id : Int
  url : String
  alt : String
deriving DecidableEq, Repr

/-- The deck from `src/constants.ts`: twelve slides whose URLs are built
from the environment-provided base path (`import.meta.env.BASE_URL`),
kept here as an explicit parameter. -/
def IMAGES (base : String) : List SlideData :=
  [ ⟨1,  base ++ "images/slide-01.webp", "Slide 1"⟩,
    ⟨2,  base ++ "images/slide-02.webp", "Slide 2"⟩,
    ⟨3,  base ++ "images/slide-03.webp", "Slide 3"⟩,
    ⟨4,  base ++ "images/slide-04.webp", "Slide 4"⟩,
    ⟨5,  base ++ "images/slide-05.webp", "Slide 5"⟩,
    ⟨6,  base ++ "images/slide-06.webp", "Slide 6"⟩,
    ⟨7,  base ++ "images/slide-07.webp", "Slide 7"⟩,
    ⟨8,  base ++ "images/slide-08.webp", "Slide 8"⟩,
    ⟨9,  base ++ "images/slide-09.webp", "Slide 9"⟩,
    ⟨10, base ++ "images/slide-10.webp", "Slide 10"⟩,
    ⟨11, base ++ "images/slide-11.webp", "Slide 11"⟩,
    ⟨12, base ++ "images/slide-12.webp", "Slide 12"⟩ ]

/-- Modelled from the spec: the `SwipeDirection` enum lives in
`src/types.ts`, which is not under `src/`.  The spec fixes the values
through the keyboard/button mapping — "ArrowRight/ArrowLeft and explicit
prev/next controls call Paginate(+1)/Paginate(-1) directly" — and the
source wires `ArrowRight` to `SwipeDirection.RIGHT` and `ArrowLeft` to
`SwipeDirection.LEFT`, so `RIGHT = +1` (forward) and `LEFT = -1`
(backward). -/
def SwipeDirection.RIGHT : Int := 1

/-- Modelled from the spec: see `SwipeDirection.RIGHT`. -/
def SwipeDirection.LEFT : Int := -1

/-- `Math.abs`, written with an executable conditional so that concrete
states evaluate inside the kernel. -/
def mathAbs (x : ℚ) : ℚ :=
  if x < 0 then -x else x

/-- `Math.min` on two arguments, written executably. -/
def mathMin (a b : ℚ) : ℚ :=
  if a ≤ b then a else b

/-- `Math.max` on two arguments, written executably. -/
def mathMax (a b : ℚ) : ℚ :=
  if a ≤ b then b else a

/-- `mathAbs` agrees with Mathlib's absolute value. -/
theorem mathAbs_eq_abs (x : ℚ) : mathAbs x = |x| := by
  rw [mathAbs]
  rcases lt_or_ge x 0 with h | h
  · rw [if_pos h, abs_of_neg h]
  · rw [if_neg (not_lt.mpr h), abs_of_nonneg h]

/-- `mathMin` agrees with Mathlib's `min`. -/
theorem mathMin_eq_min (a b : ℚ) : mathMin a b = min a b :=
  (min_def a b).symm

/-- `mathMax` agrees with Mathlib's `max`. -/
theorem mathMax_eq_max (a b : ℚ) : mathMax a b = max a b :=
  (max_def a b).symm

/-- `swipeConfidenceThreshold` (Carousel.tsx line 8). -/
def swipeConfidenceThreshold : ℚ := 10000

/-- `swipePower` (Carousel.tsx lines 9-11): `Math.abs(offset) * velocity`.
Note the velocity factor is signed. -/
def swipePower (offset velocity : ℚ) : ℚ :=
  mathAbs offset * velocity

/-- One edge-bounce pulse as produced by `triggerEdgeBounce`
(Carousel.tsx lines 49-54): the motion value is set to `nudge`, and a
`setTimeout` schedules it back to `resetTarget` after `resetDelayMs`. -/
structure BouncePulse where
  nudge : ℚ
  resetTarget : ℚ
  resetDelayMs : ℚ
deriving DecidableEq, Repr

/-- `triggerEdgeBounce` (Carousel.tsx lines 49-54): nudge by 15px opposite
the attempted direction, then spring back to 0 after 50ms. -/
def triggerEdgeBounce (direction : Int) : BouncePulse :=
  { nudge := if direction > 0 then -15 else 15
    resetTarget := 0
    resetDelayMs := 50 }

/-- Outcome of one `paginate` call (Carousel.tsx lines 56-63): either the
page change is committed by `setPage([newPage, newDirection])`, or it is
rejected and an edge-bounce pulse fires instead. -/
inductive PaginateResult where
  | committed (newPage : Int) (newDirection : Int)
  | bounced (pulse : BouncePulse)
deriving DecidableEq, Repr

/-- `paginate` (Carousel.tsx lines 56-63), parameterized over the deck it
reads `IMAGES.length` from. -/
def paginate (deck : List SlideData) (page : Int) (newDirection : Int) : PaginateResult :=
  let newPage := page + newDirection
  if 0 ≤ newPage ∧ newPage < (deck.length : Int) then
    .committed newPage newDirection
  else
    .bounced (triggerEdgeBounce newDirection)

/-- A recorded touch point: `{ x, y, time }` as stored by
`touchStartRef` / `lastTapRef` (Carousel.tsx lines 141, 151). -/
structure TapRecord where
  x : ℚ
  y : ℚ
  time : ℚ
deriving DecidableEq, Repr

/-- The component state the verified claims touch: `page`/`direction`
(line 38), the edge-bounce motion target (line 46), the zoom motion
targets (lines 117-119), the `isZoomed` flag (lines 125-126), the pan
anchor `panOffsetRef` (line 129), the pinch origin (line 252) and the
tap-tracking refs (lines 141, 151). -/
structure CarouselState where
  page : Int
  direction : Int
  edgeBounceX : ℚ
  zoomScale : ℚ
  zoomX : ℚ
  zoomY : ℚ
  isZoomed : Bool
  panOffsetX : ℚ
  panOffsetY : ℚ
  pinchOrigin : Option (ℚ × ℚ)
  touchStart : Option TapRecord
  lastTap : Option TapRecord
deriving DecidableEq, Repr

/-- Mount-time state: `useState([0, 0])`, motion values at 0, scale at 1,
`isZoomed = false`, all refs empty (Carousel.tsx lines 38, 46, 117-129,
141, 151). -/
def initialState : CarouselState :=
  { page := 0, direction := 0, edgeBounceX := 0
    zoomScale := 1, zoomX := 0, zoomY := 0
    isZoomed := false, panOffsetX := 0, panOffsetY := 0
    pinchOrigin := none, touchStart := none, lastTap := none }

/-- The `useEffect` with dependency `[page]` (Carousel.tsx lines 131-138):
whenever `page` changes, zoom scale and offsets return to identity,
`isZoomed` is cleared and the pan anchor is reset. -/
def pageChangeResetEffect (s : CarouselState) : CarouselState :=
  { s with zoomScale := 1, zoomX := 0, zoomY := 0
           isZoomed := false, panOffsetX := 0, panOffsetY := 0 }

/-- Applies one `PaginateResult` to the component state.  A committed
result re-renders with the new `[page, direction]` pair, which fires the
page-change reset effect; a bounced result only sets the edge-bounce
motion target and is reported as the single emitted pulse. -/
def applyPaginateResult (s : CarouselState) : PaginateResult → CarouselState × List BouncePulse
  | .committed newPage newDirection =>
      (pageChangeResetEffect { s with page := newPage, direction := newDirection }, [])
  | .bounced pulse =>
      ({ s with edgeBounceX := pulse.nudge }, [pulse])

/-- One `paginate` call with its state update: decision per
Carousel.tsx lines 56-63, state effects per lines 49-54 and 131-138. -/
def applyPaginate (deck : List SlideData) (s : CarouselState) (newDirection : Int) :
    CarouselState × List BouncePulse :=
  applyPaginateResult s (paginate deck s.page newDirection)

/-- The `onDragEnd` classifier (Carousel.tsx lines 403-411): when zoomed
it bails out; otherwise `swipe = swipePower(offset.x, velocity.x)`, a
swipe below `-threshold` paginates RIGHT (= +1) and a swipe above
`+threshold` paginates LEFT (= -1); anything in between is a cancelled
drag (`none`). -/
def onDragEnd (deck : List SlideData) (isZoomed : Bool) (page : Int)
    (offsetX velocityX : ℚ) : Option PaginateResult :=
  if isZoomed then none
  else
    let swipe := swipePower offsetX velocityX
    if swipe < -swipeConfidenceThreshold then
      some (paginate deck page SwipeDirection.RIGHT)
    else if swipe > swipeConfidenceThreshold then
      some (paginate deck page SwipeDirection.LEFT)
    else
      none

/-- `onDragEnd` together with its state update (a committed decision
re-renders and resets zoom, a bounced one pulses the edge channel). -/
def dragEndStep (deck : List SlideData) (s : CarouselState)
    (offsetX velocityX : ℚ) : CarouselState × List BouncePulse :=
  match onDragEnd deck s.isZoomed s.page offsetX velocityX with
  | none => (s, [])
  | some r => applyPaginateResult s r

/-- `handleDoubleTapZoom` (Carousel.tsx lines 163-191).  `tapX`/`tapY`
are already container-local; `w`/`h` are the container rect's width and
height.  Zoomed: reset everything to identity.  Not zoomed: enter a 2x
zoom anchored at the tap point and rebase the pan anchor there. -/
def handleDoubleTapZoom (w h tapX tapY : ℚ) (s : CarouselState) : CarouselState :=
  let centerX := w / 2
  let centerY := h / 2
  if s.isZoomed then
    { s with zoomScale := 1, zoomX := 0, zoomY := 0
             isZoomed := false, panOffsetX := 0, panOffsetY := 0 }
  else
    let scale : ℚ := 2
    let offsetX := (centerX - tapX) * (scale - 1)
    let offsetY := (centerY - tapY) * (scale - 1)
    { s with zoomScale := scale, zoomX := offsetX, zoomY := offsetY
             isZoomed := true, panOffsetX := offsetX, panOffsetY := offsetY }

/-- The `usePinch` handler (Carousel.tsx lines 266-315).  Payload:
current inter-finger distance `d`, screen-space origin `(ox, oy)`, the
`first`/`active` flags and the carried `memo` (the initial distance,
returned from the first call).  `rl`/`rt` are the container rect's
left/top, `w`/`h` its width/height.  Returns the new state and the new
memo.  The JS `memo || d` fallback (line 282) treats both an absent and
a zero memo as "use the current distance". -/
def pinchHandler (w h rl rt d ox oy : ℚ) (first active : Bool) (memo : Option ℚ)
    (s : CarouselState) : CarouselState × Option ℚ :=
  let centerX := w / 2
  let centerY := h / 2
  if first then
    ({ s with pinchOrigin := some (ox - rl, oy - rt) }, some d)
  else
    let initialDistance :=
      match memo with
      | some m => if m = 0 then d else m
      | none => d
    let currentScale := d / initialDistance
    let clampedScale := mathMin (mathMax currentScale (1/2)) 3
    let originX := match s.pinchOrigin with | some p => p.1 | none => centerX
    let originY := match s.pinchOrigin with | some p => p.2 | none => centerY
    let offsetX := (centerX - originX) * (clampedScale - 1)
    let offsetY := (centerY - originY) * (clampedScale - 1)
    let s1 := { s with zoomScale := clampedScale, zoomX := offsetX, zoomY := offsetY }
    if active then
      (s1, memo)
    else
      ({ s1 with zoomScale := 1, zoomX := 0, zoomY := 0
                 pinchOrigin := none, isZoomed := false
                 panOffsetX := 0, panOffsetY := 0 }, memo)

/-- One event of the `useDrag` pan handler: cumulative movement
`(mx, my)` plus the `first`/`last` flags. -/
structure PanEvent where
  mx : ℚ
  my : ℚ
  first : Bool
  last : Bool
deriving DecidableEq, Repr

/-- The `useDrag` pan handler (Carousel.tsx lines 318-360).  Inactive
unless `isZoomed`.  On `first` the anchor is rebased to the current zoom
offset; the new offset is anchor + movement, clamped per axis to
`± (extent * (scale - 1)) / 2`; on `last` the anchor is rebased to the
clamped offset. -/
def panHandler (w h mx my : ℚ) (first last : Bool) (s : CarouselState) : CarouselState :=
  if s.isZoomed then
    let anchorX := if first then s.zoomX else s.panOffsetX
    let anchorY := if first then s.zoomY else s.panOffsetY
    let newX := anchorX + mx
    let newY := anchorY + my
    let scale := s.zoomScale
    let maxPanX := (w * (scale - 1)) / 2
    let maxPanY := (h * (scale - 1)) / 2
    let clampedX := mathMax (-maxPanX) (mathMin maxPanX newX)
    let clampedY := mathMax (-maxPanY) (mathMin maxPanY newY)
    if last then
      { s with zoomX := clampedX, zoomY := clampedY
               panOffsetX := clampedX, panOffsetY := clampedY }
    else
      { s with zoomX := clampedX, zoomY := clampedY
               panOffsetX := anchorX, panOffsetY := anchorY }
  else s

/-- A sequence of pan events, applied in order. -/
def applyPans (w h : ℚ) (events : List PanEvent) (s : CarouselState) : CarouselState :=
  events.foldl (fun st e => panHandler w h e.mx e.my e.first e.last st) s

/-- `handleTouchStart` (Carousel.tsx lines 153-160): record the touch
point and the current time. -/
def handleTouchStart (x y t : ℚ) (s : CarouselState) : CarouselState :=
  { s with touchStart := some ⟨x, y, t⟩ }

/-- Tap thresholds (Carousel.tsx lines 144-148).  `EDGE_ZONE_PERCENT`
is the source's `0.20` as a rational. -/
def TAP_THRESHOLD_MS : ℚ := 200

/-- Max movement for a tap (Carousel.tsx line 145). -/
def TAP_THRESHOLD_PX : ℚ := 10

/-- Edge-zone width as a fraction of the viewport (Carousel.tsx line 146). -/
def EDGE_ZONE_PERCENT : ℚ := 20 / 100

/-- Max time between taps for a double-tap (Carousel.tsx line 147). -/
def DOUBLE_TAP_MS : ℚ := 300

/-- Max distance between taps for a double-tap (Carousel.tsx line 148). -/
def DOUBLE_TAP_PX : ℚ := 30

/-- Discrete effects a touch-end can emit: the double-tap zoom handler
firing at a point, or an edge-zone `paginate(direction)` call. -/
inductive TapEffect where
  | doubleTapZoom (x y : ℚ)
  | edgeNavigate (direction : Int)
deriving DecidableEq, Repr

/-- `handleTouchEnd` (Carousel.tsx lines 193-248).  `(endX, endY)` is
the changed touch's client position, `now` the current time, `rl`/`rt`/
`w` the container rect's left/top/width.  A short, small-movement
release is a tap; a tap within `DOUBLE_TAP_MS` and `DOUBLE_TAP_PX` of
the stored last tap becomes the double-tap zoom; otherwise the tap is
stored and, when not zoomed, an edge-zone tap paginates immediately.
The `Math.sqrt(dx^2+dy^2) < 30` test is embedded squared. -/
def handleTouchEnd (deck : List SlideData) (w h rl rt : ℚ) (endX endY now : ℚ)
    (s : CarouselState) : CarouselState × List TapEffect :=
  match s.touchStart with
  | none => (s, [])
  | some start =>
    let deltaX := mathAbs (endX - start.x)
    let deltaY := mathAbs (endY - start.y)
    let duration := now - start.time
    if duration < TAP_THRESHOLD_MS ∧ deltaX < TAP_THRESHOLD_PX ∧ deltaY < TAP_THRESHOLD_PX then
      let tapX := start.x - rl
      let tapY := start.y - rt
      let singleTap : CarouselState × List TapEffect :=
        let s1 := { s with lastTap := some ⟨tapX, tapY, now⟩ }
        let relativeX := tapX / w
        if s1.isZoomed then
          ({ s1 with touchStart := none }, [])
        else if relativeX < EDGE_ZONE_PERCENT then
          ({ (applyPaginate deck s1 SwipeDirection.LEFT).1 with touchStart := none },
           [TapEffect.edgeNavigate SwipeDirection.LEFT])
        else if relativeX > 1 - EDGE_ZONE_PERCENT then
          ({ (applyPaginate deck s1 SwipeDirection.RIGHT).1 with touchStart := none },
           [TapEffect.edgeNavigate SwipeDirection.RIGHT])
        else
          ({ s1 with touchStart := none }, [])
      match s.lastTap with
      | some lt =>
          if now - lt.time < DOUBLE_TAP_MS ∧
              (tapX - lt.x) * (tapX - lt.x) + (tapY - lt.y) * (tapY - lt.y) <
                DOUBLE_TAP_PX * DOUBLE_TAP_PX then
            ({ handleDoubleTapZoom w h tapX tapY s with lastTap := none, touchStart := none },
             [TapEffect.doubleTapZoom tapX tapY])
          else
            singleTap
      | none => singleTap
    else
      ({ s with touchStart := none }, [])

/-- Two complete taps at the same point `(x, y)`, released at times `t1`
and `t2` (touch start and end share the timestamp, i.e. instantaneous
taps). -/
def twoTaps (deck : List SlideData) (w h rl rt : ℚ) (x y t1 t2 : ℚ)
    (s : CarouselState) : CarouselState × List TapEffect :=
  let s1 := handleTouchStart x y t1 s
  let r1 := handleTouchEnd deck w h rl rt x y t1 s1
  let s2 := handleTouchStart x y t2 r1.1
  let r2 := handleTouchEnd deck w h rl rt x y t2 s2
  (r2.1, r1.2 ++ r2.2)

/-- Target of a framer-motion variant: `x` as a percentage of the
viewport width, plus opacity and z-index. -/
structure VariantTarget where
  x : ℚ
  opacity : ℚ
  zIndex : Int
deriving DecidableEq, Repr

/-- The `enter` variant (Carousel.tsx lines 14-18):
`x: direction > 0 ? '100%' : '-100%'`, opacity 1. -/
def variantsEnter (direction : Int) : VariantTarget :=
  { x := if direction > 0 then 100 else -100, opacity := 1, zIndex := 0 }

/-- The `center` variant (Carousel.tsx lines 19-26): `x: 0`, opacity 1. -/
def variantsCenter : VariantTarget :=
  { x := 0, opacity := 1, zIndex := 1 }

/-- The `exit` variant (Carousel.tsx lines 27-34):
`x: direction < 0 ? '100%' : '-100%'`, opacity 1. -/
def variantsExit (direction : Int) : VariantTarget :=
  { x := if direction < 0 then 100 else -100, opacity := 1, zIndex := 0 }

/-- The slide lookup the render performs (`IMAGES[imageIndex]`,
Carousel.tsx line 392): a JavaScript out-of-range index yields
`undefined`, whose `.url` access throws to the caller — embedded as
`none`. -/
def renderSlide (deck : List SlideData) (imageIndex : Int) : Option SlideData :=
  if 0 ≤ imageIndex then deck.get? imageIndex.toNat else none

/-- Render guard of the previous-page button (`page > 0 && ...`,
Carousel.tsx line 445). -/
def prevButtonVisible (page : Int) : Bool :=
  decide (page > 0)

/-- Render guard of the next-page button
(`page < IMAGES.length - 1 && ...`, Carousel.tsx line 454). -/
def nextButtonVisible (deck : List SlideData) (page : Int) : Bool :=
  decide (page < (deck.length : Int) - 1)

/-- The deck literal in `src/constants.ts` has twelve slides for any base
path. -/
theorem IMAGES_length (base : String) : (IMAGES base).length = 12 := rfl

/-- C2: for every page in `[0, N)` and direction in `{-1, +1}`,
`Paginate(direction)` either commits `page' = page + direction` when in
range, or leaves the page unchanged and emits exactly one edge-bounce
pulse: a 15px nudge opposite the attempted direction, scheduled back to
0 after 50ms. -/
theorem paginate_commit_or_bounce (base : String) (s : CarouselState) (dir : Int)
    (h0 : 0 ≤ s.page) (hN : s.page < ((IMAGES base).length : Int))
    (hdir : dir = -1 ∨ dir = 1) :
    (0 ≤ s.page + dir ∧ s.page + dir < ((IMAGES base).length : Int)) ∧
      (applyPaginate (IMAGES base) s dir).1.page = s.page + dir ∧
      (applyPaginate (IMAGES base) s dir).2 = [] ∨
    ¬(0 ≤ s.page + dir ∧ s.page + dir < ((IMAGES base).length : Int)) ∧
      (applyPaginate (IMAGES base) s dir).1.page = s.page ∧
      (applyPaginate (IMAGES base) s dir).2 =
        [{ nudge := (-15 : ℚ) * (dir : ℚ), resetTarget := 0, resetDelayMs := 50 }] := by
  by_cases hin : 0 ≤ s.page + dir ∧ s.page + dir < ((IMAGES base).length : Int)
  · left
    refine ⟨hin, ?_, ?_⟩ <;>
      simp [applyPaginate, paginate, hin, applyPaginateResult, pageChangeResetEffect]
  · right
    refine ⟨hin, ?_, ?_⟩
    · simp [applyPaginate, paginate, hin, applyPaginateResult]
    · simp [applyPaginate, paginate, hin, applyPaginateResult, triggerEdgeBounce]
      rcases hdir with h | h <;> subst h <;> norm_num

/-- Witness for `paginate_commit_or_bounce` at the deck of 12, page 0,
direction +1 (an in-range move). -/
theorem paginate_commit_or_bounce_witness :
    (0 ≤ initialState.page ∧
        initialState.page < ((IMAGES "").length : Int) ∧ ((1 : Int) = -1 ∨ (1 : Int) = 1)) ∧
    ((0 ≤ initialState.page + 1 ∧ initialState.page + 1 < ((IMAGES "").length : Int)) ∧
      (applyPaginate (IMAGES "") initialState 1).1.page = initialState.page + 1 ∧
      (applyPaginate (IMAGES "") initialState 1).2 = [] ∨
    ¬(0 ≤ initialState.page + 1 ∧ initialState.page + 1 < ((IMAGES "").length : Int)) ∧
      (applyPaginate (IMAGES "") initialState 1).1.page = initialState.page ∧
      (applyPaginate (IMAGES "") initialState 1).2 =
        [{ nudge := (-15 : ℚ) * ((1 : Int) : ℚ), resetTarget := 0, resetDelayMs := 50 }]) :=
  ⟨⟨by decide, by decide, Or.inr rfl⟩,
   paginate_commit_or_bounce "" initialState 1 (by decide) (by decide) (Or.inr rfl)⟩

/-- C3: every committed page change resets the zoom state to identity:
scale 1, offsets 0, `isZoomed = false`, pan anchor `(0, 0)`. -/
theorem committed_pageChange_resets_zoom (base : String) (s : CarouselState)
    (dir p d : Int)
    (h : paginate (IMAGES base) s.page dir = .committed p d) :
    (applyPaginate (IMAGES base) s dir).1.zoomScale = 1 ∧
    (applyPaginate (IMAGES base) s dir).1.zoomX = 0 ∧
    (applyPaginate (IMAGES base) s dir).1.zoomY = 0 ∧
    (applyPaginate (IMAGES base) s dir).1.isZoomed = false ∧
    (applyPaginate (IMAGES base) s dir).1.panOffsetX = 0 ∧
    (applyPaginate (IMAGES base) s dir).1.panOffsetY = 0 := by
  simp [applyPaginate, h, applyPaginateResult, pageChangeResetEffect]

/-- Witness for `committed_pageChange_resets_zoom`: page 0 to 1 on the
deck of 12, starting from a state that is mid-zoom. -/
theorem committed_pageChange_resets_zoom_witness :
    (applyPaginate (IMAGES "")
        { initialState with zoomScale := 2, zoomX := 40, zoomY := 50, isZoomed := true } 1).1.zoomScale = 1 ∧
    (applyPaginate (IMAGES "")
        { initialState with zoomScale := 2, zoomX := 40, zoomY := 50, isZoomed := true } 1).1.zoomX = 0 ∧
    (applyPaginate (IMAGES "")
        { initialState with zoomScale := 2, zoomX := 40, zoomY := 50, isZoomed := true } 1).1.zoomY = 0 ∧
    (applyPaginate (IMAGES "")
        { initialState with zoomScale := 2, zoomX := 40, zoomY := 50, isZoomed := true } 1).1.isZoomed = false ∧
    (applyPaginate (IMAGES "")
        { initialState with zoomScale := 2, zoomX := 40, zoomY := 50, isZoomed := true } 1).1.panOffsetX = 0 ∧
    (applyPaginate (IMAGES "")
        { initialState with zoomScale := 2, zoomX := 40, zoomY := 50, isZoomed := true } 1).1.panOffsetY = 0 :=
  committed_pageChange_resets_zoom ""
    { initialState with zoomScale := 2, zoomX := 40, zoomY := 50, isZoomed := true }
    1 1 1 (by decide)

/-- C9: with an empty deck the very first render's slide lookup fails
(reported to the caller as `none`, i.e. at construction time), while the
gesture-driven page operation never touches slide data: every `paginate`
on an empty deck is rejected with a bounce, for any page and direction. -/
theorem empty_deck_fails_at_construction (page dir : Int) :
    renderSlide ([] : List SlideData) 0 = none ∧
    paginate ([] : List SlideData) page dir = .bounced (triggerEdgeBounce dir) := by
  refine ⟨rfl, ?_⟩
  have h : ¬(0 ≤ page + dir ∧ page + dir < (([] : List SlideData).length : Int)) := by
    simp only [List.length_nil, Int.ofNat_zero]
    omega
  simp [paginate, h]

/-- C10: under the rendered-state invariant `0 ≤ page < N`, the
previous-page button is present exactly when `page > 0`, the next-page
button exactly when `page < N - 1`, and a `paginate` call from a visible
button always commits (never takes the edge-bounce path). -/
theorem nav_buttons_always_commit (base : String) (page : Int)
    (h0 : 0 ≤ page) (hN : page < ((IMAGES base).length : Int)) :
    (prevButtonVisible page = true ↔ 0 < page) ∧
    (nextButtonVisible (IMAGES base) page = true ↔
      page < ((IMAGES base).length : Int) - 1) ∧
    (prevButtonVisible page = true →
      paginate (IMAGES base) page SwipeDirection.LEFT = .committed (page - 1) (-1)) ∧
    (nextButtonVisible (IMAGES base) page = true →
      paginate (IMAGES base) page SwipeDirection.RIGHT = .committed (page + 1) 1) := by
  refine ⟨by simp [prevButtonVisible], by simp [nextButtonVisible], ?_, ?_⟩
  · intro hp
    rw [prevButtonVisible, decide_eq_true_iff] at hp
    have hin : 0 ≤ page + SwipeDirection.LEFT ∧
        page + SwipeDirection.LEFT < ((IMAGES base).length : Int) := by
      rw [SwipeDirection.LEFT]
      omega
    simp only [paginate, if_pos hin]
    rw [SwipeDirection.LEFT]
    rw [show page + -1 = page - 1 by omega]
  · intro hn
    rw [nextButtonVisible, decide_eq_true_iff] at hn
    have hin : 0 ≤ page + SwipeDirection.RIGHT ∧
        page + SwipeDirection.RIGHT < ((IMAGES base).length : Int) := by
      rw [SwipeDirection.RIGHT]
      omega
    simp only [paginate, if_pos hin]
    rw [SwipeDirection.RIGHT]

/-- Witness for `nav_buttons_always_commit` at page 1 of the deck of 12,
where both buttons are visible and both clicks commit. -/
theorem nav_buttons_always_commit_witness :
    ((0 : Int) ≤ 1 ∧ (1 : Int) < ((IMAGES "").length : Int)) ∧
    ((prevButtonVisible 1 = true ↔ (0 : Int) < 1) ∧
     (nextButtonVisible (IMAGES "") 1 = true ↔
       (1 : Int) < ((IMAGES "").length : Int) - 1) ∧
     (prevButtonVisible 1 = true →
       paginate (IMAGES "") 1 SwipeDirection.LEFT = .committed 0 (-1)) ∧
     (nextButtonVisible (IMAGES "") 1 = true →
       paginate (IMAGES "") 1 SwipeDirection.RIGHT = .committed 2 1)) :=
  ⟨⟨by decide, by decide⟩,
   nav_buttons_always_commit "" 1 (by decide) (by decide)⟩

/-- The swipe score of the claim's drag: `Math.abs(-150) * 80 = 12000`. -/
theorem swipePower_claim_drag : swipePower (-150) 80 = 12000 := by
  norm_num [swipePower, mathAbs]

/-- Evaluation of `onDragEnd` at the claim's drag (`offset = -150`,
`velocity = 80`, page 0, not zoomed, deck of 12): the positive score
routes to `paginate(-1)`, which bounces at page 0. -/
theorem onDragEnd_claim_drag :
    onDragEnd (IMAGES "") false 0 (-150) 80 =
      some (.bounced { nudge := 15, resetTarget := 0, resetDelayMs := 50 }) := by
  rw [onDragEnd]
  norm_num [swipePower_claim_drag, swipeConfidenceThreshold, paginate,
    SwipeDirection.LEFT, triggerEdgeBounce, IMAGES]

/-- Evaluation of the drag-end step at the claim's drag from the mount
state: the page stays 0 and one `+15` bounce pulse is emitted. -/
theorem dragEndStep_claim_drag :
    (dragEndStep (IMAGES "") initialState (-150) 80).1.page = 0 ∧
    (dragEndStep (IMAGES "") initialState (-150) 80).2 =
      [{ nudge := 15, resetTarget := 0, resetDelayMs := 50 }] := by
  have h : onDragEnd (IMAGES "") initialState.isZoomed initialState.page (-150) 80 =
      some (.bounced { nudge := 15, resetTarget := 0, resetDelayMs := 50 }) :=
    onDragEnd_claim_drag
  rw [dragEndStep, h]
  exact ⟨rfl, rfl⟩

/-- C1 counterexample: the drag the claim describes (`offset = -150`,
`velocity = 80` at page 0 of the 12-slide deck) does not commit page
0 → 1; the signed swipe score `|−150| * 80 = 12000 > 10000` routes to
`paginate(LEFT) = paginate(-1)`, which is out of range at page 0 and
bounces instead. -/
theorem dragEnd_offsetSign_claim_false :
    onDragEnd (IMAGES "") false 0 (-150) 80 =
      some (.bounced { nudge := 15, resetTarget := 0, resetDelayMs := 50 }) ∧
    onDragEnd (IMAGES "") false 0 (-150) 80 ≠
      some (.committed 1 1) := by
  refine ⟨onDragEnd_claim_drag, ?_⟩
  rw [onDragEnd_claim_drag]
  simp

/-- C1 (amended): at release the code computes
`swipe = |offsetX| * velocityX` with the velocity signed; a swipe above
`+10000` navigates toward the previous page (`paginate(-1)`, opposite
the velocity sign), and on the 12-slide deck at page 0 the drag
`offset = -150, velocity = 80` yields `swipe = 12000 > 10000`, so the
attempted backward move is rejected with one `+15px` edge-bounce pulse
and the page stays 0. -/
theorem dragEnd_velocitySign_decision (base : String) (page : Int) (off vel : ℚ)
    (h : swipePower off vel > swipeConfidenceThreshold) :
    onDragEnd (IMAGES base) false page off vel =
      some (paginate (IMAGES base) page (-1)) ∧
    swipePower off vel = |off| * vel ∧
    (dragEndStep (IMAGES "") initialState (-150) 80).1.page = 0 ∧
    (dragEndStep (IMAGES "") initialState (-150) 80).2 =
      [{ nudge := 15, resetTarget := 0, resetDelayMs := 50 }] := by
  refine ⟨?_, by rw [swipePower, mathAbs_eq_abs],
    dragEndStep_claim_drag.1, dragEndStep_claim_drag.2⟩
  have hnotlt : ¬ swipePower off vel < -swipeConfidenceThreshold := by
    rw [swipeConfidenceThreshold] at h ⊢
    linarith
  simp [onDragEnd, hnotlt, h, SwipeDirection.LEFT]

/-- Witness for `dragEnd_velocitySign_decision` at the claim's own drag
(`offset = -150`, `velocity = 80`). -/
theorem dragEnd_velocitySign_decision_witness :
    swipePower (-150) 80 > swipeConfidenceThreshold ∧
    onDragEnd (IMAGES "") false 0 (-150) 80 =
      some (paginate (IMAGES "") 0 (-1)) :=
  ⟨by norm_num [swipePower, mathAbs, swipeConfidenceThreshold],
   (dragEnd_velocitySign_decision "" 0 (-150) 80
      (by norm_num [swipePower, mathAbs, swipeConfidenceThreshold])).1⟩

/-- C8 counterexample: at `direction = +1` the outgoing image's exit
target is `-100%` (the sign opposite to the direction, not equal to it),
the incoming image's enter start is `+100%` (equal, not opposite), and
the exit target neither reaches 0 position nor 0 opacity. -/
theorem variants_claimed_signs_false :
    (variantsExit 1).x = -100 ∧ (variantsEnter 1).x = 100 ∧
    (variantsExit 1).x ≠ 100 ∧ (variantsEnter 1).x ≠ -100 ∧
    (variantsExit 1).x ≠ 0 ∧ (variantsExit 1).opacity ≠ 0 := by
  refine ⟨rfl, rfl, by decide, by decide, by decide, by decide⟩

/-- C8 (amended): for a committed direction (`±1`), the incoming image's
enter start is `±100%` of viewport width with sign equal to the
direction, the outgoing image's exit target is the opposite sign, the
incoming image converges to position 0, and opacity is constant 1 on all
three variants (no fade). -/
theorem variants_geometry (d : Int) (hd : d = 1 ∨ d = -1) :
    (variantsEnter d).x = (if 0 < d then (100 : ℚ) else -100) ∧
    (variantsExit d).x = -(variantsEnter d).x ∧
    variantsCenter.x = 0 ∧
    (variantsEnter d).opacity = 1 ∧
    variantsCenter.opacity = 1 ∧
    (variantsExit d).opacity = 1 := by
  rcases hd with h | h <;> subst h <;> refine ⟨by decide, by decide, rfl, rfl, rfl, rfl⟩

/-- Witness for `variants_geometry` at `direction = +1`. -/
theorem variants_geometry_witness :
    ((1 : Int) = 1 ∨ (1 : Int) = -1) ∧
    ((variantsEnter 1).x = (if (0 : Int) < 1 then (100 : ℚ) else -100) ∧
     (variantsExit 1).x = -(variantsEnter 1).x ∧
     variantsCenter.x = 0 ∧
     (variantsEnter 1).opacity = 1 ∧
     variantsCenter.opacity = 1 ∧
     (variantsExit 1).opacity = 1) :=
  ⟨Or.inl rfl, variants_geometry 1 (Or.inl rfl)⟩

/-- C5: a double-tap while not zoomed enters a 2x zoom with
`offset = (center - origin) * (scale - 1)` on each axis, sets
`isZoomed`, anchors the pan at that offset; a second double-tap at the
same point restores the zoom state exactly to identity. -/
theorem doubleTap_enter_exit_identity (w h tapX tapY : ℚ) (s : CarouselState)
    (hz : s.isZoomed = false) :
    (handleDoubleTapZoom w h tapX tapY s).zoomScale = 2 ∧
    (handleDoubleTapZoom w h tapX tapY s).zoomX = (w / 2 - tapX) * (2 - 1) ∧
    (handleDoubleTapZoom w h tapX tapY s).zoomY = (h / 2 - tapY) * (2 - 1) ∧
    (handleDoubleTapZoom w h tapX tapY s).isZoomed = true ∧
    (handleDoubleTapZoom w h tapX tapY s).panOffsetX =
      (handleDoubleTapZoom w h tapX tapY s).zoomX ∧
    (handleDoubleTapZoom w h tapX tapY s).panOffsetY =
      (handleDoubleTapZoom w h tapX tapY s).zoomY ∧
    (handleDoubleTapZoom w h tapX tapY (handleDoubleTapZoom w h tapX tapY s)).zoomScale = 1 ∧
    (handleDoubleTapZoom w h tapX tapY (handleDoubleTapZoom w h tapX tapY s)).zoomX = 0 ∧
    (handleDoubleTapZoom w h tapX tapY (handleDoubleTapZoom w h tapX tapY s)).zoomY = 0 ∧
    (handleDoubleTapZoom w h tapX tapY (handleDoubleTapZoom w h tapX tapY s)).isZoomed = false ∧
    (handleDoubleTapZoom w h tapX tapY (handleDoubleTapZoom w h tapX tapY s)).panOffsetX = 0 ∧
    (handleDoubleTapZoom w h tapX tapY (handleDoubleTapZoom w h tapX tapY s)).panOffsetY = 0 := by
  simp [handleDoubleTapZoom, hz]

/-- Witness for `doubleTap_enter_exit_identity`: tap at `(50, 50)` in a
300 by 500 viewport from the mount state. -/
theorem doubleTap_enter_exit_identity_witness :
    initialState.isZoomed = false ∧
    (handleDoubleTapZoom 300 500 50 50 initialState).zoomScale = 2 ∧
    (handleDoubleTapZoom 300 500 50 50 initialState).zoomX = (300 / 2 - 50) * (2 - 1) ∧
    (handleDoubleTapZoom 300 500 50 50 initialState).zoomY = (500 / 2 - 50) * (2 - 1) ∧
    (handleDoubleTapZoom 300 500 50 50
      (handleDoubleTapZoom 300 500 50 50 initialState)).zoomScale = 1 :=
  ⟨rfl,
   (doubleTap_enter_exit_identity 300 500 50 50 initialState rfl).1,
   (doubleTap_enter_exit_identity 300 500 50 50 initialState rfl).2.1,
   (doubleTap_enter_exit_identity 300 500 50 50 initialState rfl).2.2.1,
   (doubleTap_enter_exit_identity 300 500 50 50 initialState rfl).2.2.2.2.2.2.1⟩

/-- A state mid-pinch whose captured origin is `(50, 50)` (what the first
pinch event at screen point `(50, 50)` with `rect.left = rect.top = 0`
stores). -/
def pinchDemoStart : CarouselState :=
  { initialState with pinchOrigin := some (50, 50) }

/-- The pinch update of the spec's pinch walkthrough: `d0 = 100`,
`d = 150`, origin `(50, 50)`, in a 300 by 500 viewport. -/
def pinchDemoUpdate : CarouselState × Option ℚ :=
  pinchHandler 300 500 0 0 150 50 50 false true (some 100) pinchDemoStart

/-- The release event that follows `pinchDemoUpdate`. -/
def pinchDemoRelease : CarouselState × Option ℚ :=
  pinchHandler 300 500 0 0 150 50 50 false false pinchDemoUpdate.2 pinchDemoUpdate.1

/-- C4: while a pinch is active the applied scale is
`clamp(d/d0, 0.5, 3.0)` and the offsets follow the anchor formula at the
captured origin; the concrete walkthrough (`d0 = 100`, `d = 150`, origin
`(50, 50)`, 300 by 500 viewport) gives scale `3/2`, offsets `(50, 100)`;
and any release event (`active = false`) restores scale 1 and offsets 0
with `isZoomed` cleared, whatever the prior state. -/
theorem pinch_clamp_anchor_release (w h rl rt px py d0 d d2 ox oy : ℚ)
    (s sR : CarouselState) (m : Option ℚ)
    (hd0 : d0 ≠ 0) (hor : s.pinchOrigin = some (px, py)) :
    (pinchHandler w h rl rt d ox oy false true (some d0) s).1.zoomScale =
      mathMin (mathMax (d / d0) (1/2)) 3 ∧
    (pinchHandler w h rl rt d ox oy false true (some d0) s).1.zoomX =
      (w / 2 - px) * (mathMin (mathMax (d / d0) (1/2)) 3 - 1) ∧
    (pinchHandler w h rl rt d ox oy false true (some d0) s).1.zoomY =
      (h / 2 - py) * (mathMin (mathMax (d / d0) (1/2)) 3 - 1) ∧
    mathMin (mathMax (d / d0) (1/2)) 3 = min (max (d / d0) (1/2)) 3 ∧
    (pinchHandler w h rl rt d2 ox oy false false m sR).1.zoomScale = 1 ∧
    (pinchHandler w h rl rt d2 ox oy false false m sR).1.zoomX = 0 ∧
    (pinchHandler w h rl rt d2 ox oy false false m sR).1.zoomY = 0 ∧
    (pinchHandler w h rl rt d2 ox oy false false m sR).1.isZoomed = false ∧
    pinchDemoUpdate.1.zoomScale = 3/2 ∧
    pinchDemoUpdate.1.zoomX = 50 ∧
    pinchDemoUpdate.1.zoomY = 100 ∧
    pinchDemoRelease.1.zoomScale = 1 ∧
    pinchDemoRelease.1.zoomX = 0 ∧
    pinchDemoRelease.1.zoomY = 0 := by
  have hdemo : pinchDemoUpdate.1.zoomScale = 3/2 ∧
      pinchDemoUpdate.1.zoomX = 50 ∧ pinchDemoUpdate.1.zoomY = 100 := by
    norm_num [pinchDemoUpdate, pinchDemoStart, pinchHandler, mathMin, mathMax, initialState]
  have hrel : pinchDemoRelease.1.zoomScale = 1 ∧
      pinchDemoRelease.1.zoomX = 0 ∧ pinchDemoRelease.1.zoomY = 0 := by
    norm_num [pinchDemoRelease, pinchHandler]
  refine ⟨?_, ?_, ?_, by rw [mathMin_eq_min, mathMax_eq_max], ?_, ?_, ?_, ?_,
    hdemo.1, hdemo.2.1, hdemo.2.2, hrel.1, hrel.2.1, hrel.2.2⟩ <;>
    simp [pinchHandler, hor, hd0]

/-- Witness for `pinch_clamp_anchor_release` at the spec's pinch
walkthrough values. -/
theorem pinch_clamp_anchor_release_witness :
    ((100 : ℚ) ≠ 0 ∧ pinchDemoStart.pinchOrigin = some (50, 50)) ∧
    ((pinchHandler 300 500 0 0 150 50 50 false true (some 100) pinchDemoStart).1.zoomScale =
      mathMin (mathMax ((150 : ℚ) / 100) (1/2)) 3 ∧
     (pinchHandler 300 500 0 0 150 50 50 false false none initialState).1.zoomScale = 1) :=
  ⟨⟨by norm_num, rfl⟩,
   (pinch_clamp_anchor_release 300 500 0 0 50 50 100 150 150 50 50
      pinchDemoStart initialState none (by norm_num) rfl).1,
   (pinch_clamp_anchor_release 300 500 0 0 50 50 100 150 150 50 50
      pinchDemoStart initialState none (by norm_num) rfl).2.2.2.2.1⟩

/-- The clamp `Math.max(-m, Math.min(m, x))` stays within `±m` whenever
`m` is non-negative. -/
theorem mathClamp_abs_le (m x : ℚ) (hm : 0 ≤ m) :
    |mathMax (-m) (mathMin m x)| ≤ m := by
  rw [mathMax_eq_max, mathMin_eq_min, abs_le]
  exact ⟨le_max_left _ _, max_le (by linarith) (min_le_left _ _)⟩

/-- A pan event never changes `isZoomed` or `zoomScale`. -/
theorem panHandler_preserves (w h mx my : ℚ) (f l : Bool) (s : CarouselState) :
    (panHandler w h mx my f l s).isZoomed = s.isZoomed ∧
    (panHandler w h mx my f l s).zoomScale = s.zoomScale := by
  by_cases hz : s.isZoomed = true <;> by_cases hl : l = true <;>
    simp [panHandler, hz, hl]

/-- The horizontal offset a pan event writes, in clamp form. -/
theorem panHandler_zoomX_eq (w h mx my : ℚ) (f l : Bool) (s : CarouselState)
    (hz : s.isZoomed = true) :
    (panHandler w h mx my f l s).zoomX =
      mathMax (-((w * (s.zoomScale - 1)) / 2))
        (mathMin ((w * (s.zoomScale - 1)) / 2)
          ((if f then s.zoomX else s.panOffsetX) + mx)) := by
  by_cases hl : l = true <;> simp [panHandler, hz, hl]

/-- The vertical offset a pan event writes, in clamp form. -/
theorem panHandler_zoomY_eq (w h mx my : ℚ) (f l : Bool) (s : CarouselState)
    (hz : s.isZoomed = true) :
    (panHandler w h mx my f l s).zoomY =
      mathMax (-((h * (s.zoomScale - 1)) / 2))
        (mathMin ((h * (s.zoomScale - 1)) / 2)
          ((if f then s.zoomY else s.panOffsetY) + my)) := by
  by_cases hl : l = true <;> simp [panHandler, hz, hl]

/-- One pan event lands each axis inside the legal pan range. -/
theorem panHandler_step_bound (w h mx my : ℚ) (f l : Bool) (s : CarouselState)
    (hz : s.isZoomed = true) (hs : 1 ≤ s.zoomScale) (hw : 0 ≤ w) (hh : 0 ≤ h) :
    |(panHandler w h mx my f l s).zoomX| ≤ (w * (s.zoomScale - 1)) / 2 ∧
    |(panHandler w h mx my f l s).zoomY| ≤ (h * (s.zoomScale - 1)) / 2 := by
  have hmX : 0 ≤ (w * (s.zoomScale - 1)) / 2 :=
    div_nonneg (mul_nonneg hw (by linarith)) (by norm_num)
  have hmY : 0 ≤ (h * (s.zoomScale - 1)) / 2 :=
    div_nonneg (mul_nonneg hh (by linarith)) (by norm_num)
  rw [panHandler_zoomX_eq w h mx my f l s hz, panHandler_zoomY_eq w h mx my f l s hz]
  exact ⟨mathClamp_abs_le _ _ hmX, mathClamp_abs_le _ _ hmY⟩

/-- A gesture-ending pan event (`last = true`) rebases the pan anchor to
the clamped offset it wrote. -/
theorem panHandler_rebase (w h mx my : ℚ) (f : Bool) (s : CarouselState)
    (hz : s.isZoomed = true) :
    (panHandler w h mx my f true s).panOffsetX = (panHandler w h mx my f true s).zoomX ∧
    (panHandler w h mx my f true s).panOffsetY = (panHandler w h mx my f true s).zoomY := by
  simp [panHandler, hz]

/-- A whole pan sequence never changes `isZoomed` or `zoomScale`. -/
theorem applyPans_preserves (w h : ℚ) (events : List PanEvent) :
    ∀ s : CarouselState,
      (applyPans w h events s).isZoomed = s.isZoomed ∧
      (applyPans w h events s).zoomScale = s.zoomScale := by
  induction events with
  | nil => intro s; exact ⟨rfl, rfl⟩
  | cons e es ih =>
      intro s
      have hstep := panHandler_preserves w h e.mx e.my e.first e.last s
      have htail := ih (panHandler w h e.mx e.my e.first e.last s)
      have hun : applyPans w h (e :: es) s =
          applyPans w h es (panHandler w h e.mx e.my e.first e.last s) := by
        simp [applyPans]
      rw [hun]
      exact ⟨htail.1.trans hstep.1, htail.2.trans hstep.2⟩

/-- After a non-empty pan sequence from a zoomed state with scale at
least 1, both offsets lie inside the legal pan range of the starting
scale. -/
theorem applyPans_bound (w h : ℚ) (hw : 0 ≤ w) (hh : 0 ≤ h) :
    ∀ (events : List PanEvent) (s : CarouselState),
      s.isZoomed = true → 1 ≤ s.zoomScale → events ≠ [] →
      |(applyPans w h events s).zoomX| ≤ (w * (s.zoomScale - 1)) / 2 ∧
      |(applyPans w h events s).zoomY| ≤ (h * (s.zoomScale - 1)) / 2 := by
  intro events
  induction events with
  | nil => intro s _ _ hne; exact absurd rfl hne
  | cons e es ih =>
      intro s hz hs _
      have hun : applyPans w h (e :: es) s =
          applyPans w h es (panHandler w h e.mx e.my e.first e.last s) := by
        simp [applyPans]
      by_cases hes : es = []
      · subst hes
        rw [hun]
        exact panHandler_step_bound w h e.mx e.my e.first e.last s hz hs hw hh
      · have hstep := panHandler_preserves w h e.mx e.my e.first e.last s
        have h1 : (panHandler w h e.mx e.my e.first e.last s).isZoomed = true :=
          hstep.1.trans hz
        have h2 : 1 ≤ (panHandler w h e.mx e.my e.first e.last s).zoomScale := by
          rw [hstep.2]; exact hs
        have htail := ih (panHandler w h e.mx e.my e.first e.last s) h1 h2 hes
        rw [hun]
        rw [hstep.2] at htail
        exact htail

/-- C6: from a zoomed state with scale at least 1 (a double-tap zoom
session has scale 2), any non-empty sequence of pan updates leaves both
offsets within `± (extent * (scale - 1)) / 2` for the current scale
(which pan never changes), and a gesture-ending pan event rebases the
pan anchor to the clamped offset. -/
theorem pan_offsets_clamped_and_rebased (w h mx my : ℚ) (f : Bool)
    (events : List PanEvent) (s : CarouselState)
    (hz : s.isZoomed = true) (hs : 1 ≤ s.zoomScale)
    (hw : 0 ≤ w) (hh : 0 ≤ h) (hne : events ≠ []) :
    (applyPans w h events s).zoomScale = s.zoomScale ∧
    |(applyPans w h events s).zoomX| ≤
      (w * ((applyPans w h events s).zoomScale - 1)) / 2 ∧
    |(applyPans w h events s).zoomY| ≤
      (h * ((applyPans w h events s).zoomScale - 1)) / 2 ∧
    (panHandler w h mx my f true s).panOffsetX = (panHandler w h mx my f true s).zoomX ∧
    (panHandler w h mx my f true s).panOffsetY = (panHandler w h mx my f true s).zoomY := by
  have hpres := applyPans_preserves w h events s
  have hbound := applyPans_bound w h hw hh events s hz hs hne
  have hreb := panHandler_rebase w h mx my f s hz
  rw [hpres.2]
  exact ⟨rfl, hbound.1, hbound.2, hreb.1, hreb.2⟩

/-- A double-tap zoom session state: zoomed at scale 2 with some offset. -/
def pannedDemoState : CarouselState :=
  { initialState with isZoomed := true, zoomScale := 2, zoomX := 40, zoomY := 50
                      panOffsetX := 40, panOffsetY := 50 }

/-- Witness for `pan_offsets_clamped_and_rebased`: a two-event pan
sequence in a 300 by 500 viewport at scale 2, with a movement large
enough to hit the clamp. -/
theorem pan_offsets_clamped_and_rebased_witness :
    (pannedDemoState.isZoomed = true ∧ (1 : ℚ) ≤ pannedDemoState.zoomScale ∧
      (0 : ℚ) ≤ 300 ∧ (0 : ℚ) ≤ 500 ∧
      ([⟨10, 5, true, false⟩, ⟨1000, -999, false, true⟩] : List PanEvent) ≠ []) ∧
    ((applyPans 300 500 [⟨10, 5, true, false⟩, ⟨1000, -999, false, true⟩]
        pannedDemoState).zoomScale = pannedDemoState.zoomScale ∧
     |(applyPans 300 500 [⟨10, 5, true, false⟩, ⟨1000, -999, false, true⟩]
        pannedDemoState).zoomX| ≤
       (300 * ((applyPans 300 500 [⟨10, 5, true, false⟩, ⟨1000, -999, false, true⟩]
        pannedDemoState).zoomScale - 1)) / 2 ∧
     |(applyPans 300 500 [⟨10, 5, true, false⟩, ⟨1000, -999, false, true⟩]
        pannedDemoState).zoomY| ≤
       (500 * ((applyPans 300 500 [⟨10, 5, true, false⟩, ⟨1000, -999, false, true⟩]
        pannedDemoState).zoomScale - 1)) / 2 ∧
     (panHandler 300 500 7 (-8) false true pannedDemoState).panOffsetX =
       (panHandler 300 500 7 (-8) false true pannedDemoState).zoomX ∧
     (panHandler 300 500 7 (-8) false true pannedDemoState).panOffsetY =
       (panHandler 300 500 7 (-8) false true pannedDemoState).zoomY) :=
  ⟨⟨rfl, by norm_num [pannedDemoState, initialState], by norm_num, by norm_num,
     by simp⟩,
   pan_offsets_clamped_and_rebased 300 500 7 (-8) false
     [⟨10, 5, true, false⟩, ⟨1000, -999, false, true⟩] pannedDemoState
     rfl (by norm_num [pannedDemoState, initialState]) (by norm_num) (by norm_num)
     (by simp)⟩

/-- C7, evaluated at the failing input: two instantaneous taps at the
edge-zone point `(10, 100)` of a 300 by 500 viewport, 100ms apart,
starting at page 1, not zoomed.  The second tap is promoted to the
double-tap as claimed, but the first tap is handled as a single tap
immediately (the "slight delay" the source comments) and fires the
edge-zone `paginate(-1)`, committing page 1 to 0 — a navigation effect
the claim says cannot happen. -/
theorem twoTaps_edge_first_tap_navigates :
    (twoTaps (IMAGES "") 300 500 0 0 10 100 0 100
        { initialState with page := 1 }).2 =
      [TapEffect.edgeNavigate (-1), TapEffect.doubleTapZoom 10 100] ∧
    (twoTaps (IMAGES "") 300 500 0 0 10 100 0 100
        { initialState with page := 1 }).1.page = 0 := by
  norm_num [twoTaps, handleTouchStart, handleTouchEnd, handleDoubleTapZoom,
    applyPaginate, applyPaginateResult, paginate, pageChangeResetEffect, initialState,
    TAP_THRESHOLD_MS, TAP_THRESHOLD_PX, DOUBLE_TAP_MS, DOUBLE_TAP_PX,
    EDGE_ZONE_PERCENT, SwipeDirection.LEFT, SwipeDirection.RIGHT, mathAbs, IMAGES]
